import Mathlib

/-!
Verification of the DAQ module skeleton (`DAQModuleRenameMe.cpp`) and the
schema skeleton (`renameme.jsonnet`) of the daq-cmake template repository.

The C++ module is embedded as a pure state-transition model: the module's
member state (name, the two monitoring counters, the registered command
table) together with the list of records published so far forms a
`RenameMeState`; each member function becomes a function on that state.
The jsonnet schema is embedded as a concrete list of type-table entries and
a function delegating to an abstract `sort_select` argument.
-/

namespace DaqCmake

/-- The protobuf monitoring record `opmon::RenameMeInfo`
(from `package/opmon/renameme_info.pb.h`): two numeric fields,
`total_amount` and `amount_since_last_call`. The C++ counter width comes
from the header that declares the members (not part of this fragment);
the fields are modelled as `Nat`. -/
structure RenameMeInfo where
  total_amount : Nat
  amount_since_last_call : Nat
deriving DecidableEq, Repr

/-- The command handlers a `RenameMe` instance can register.  The skeleton
has exactly one handler, `do_conf`. -/
inductive Handler where
  | doConf
deriving DecidableEq, Repr

/-- State of a `RenameMe` module instance.

Modelled from the spec for the member declarations (the header
`RenameMe.hpp` is not part of this fragment): the instance holds a name
(stored via the base `DAQModule` contract), the two monitoring counters
`m_total_amount` and `m_amount_since_last_call`, and the table of
registered commands.  `published` records the monitoring records emitted
through the host `publish` call, in order of emission. -/
structure RenameMeState where
  name : String
  m_total_amount : Nat
  m_amount_since_last_call : Nat
  commands : List (String × Handler)
  published : List RenameMeInfo
deriving DecidableEq, Repr

/-- `RenameMe::RenameMe(const std::string& name)`: initialises the base
`DAQModule` with `name` and registers the single command
`register_command("conf", &RenameMe::do_conf)`.  The counters start at the
value-initialised default of the member declarations (zero); construction
is total (no error path). -/
def construct (name : String) : RenameMeState :=
  { name := name
    m_total_amount := 0
    m_amount_since_last_call := 0
    commands := [("conf", Handler.doConf)]
    published := [] }

/-- `RenameMe::init(std::shared_ptr<appfwk::ModuleConfiguration>)`:
the body is empty; the configuration argument is ignored and the state is
untouched. -/
def init {α : Type} (s : RenameMeState) (_mcfg : α) : RenameMeState :=
  s

/-- `RenameMe::do_conf(const data_t&)`: the body is empty; the payload is
ignored and the state is untouched.  The payload type is left abstract
(`data_t` is opaque to the skeleton). -/
def do_conf {α : Type} (s : RenameMeState) (_payload : α) : RenameMeState :=
  s

/-- The `opmon::RenameMeInfo` record assembled inside
`RenameMe::generate_opmon_data`:
`info.set_total_amount(m_total_amount.load())` and
`info.set_amount_since_last_call(m_amount_since_last_call.exchange(0))` —
the fields are the pre-call counter values. -/
def opmon_info (s : RenameMeState) : RenameMeInfo :=
  { total_amount := s.m_total_amount
    amount_since_last_call := s.m_amount_since_last_call }

/-- `RenameMe::generate_opmon_data()`: loads `m_total_amount`, exchanges
`m_amount_since_last_call` with `0` (the exchange returns the pre-call
value and leaves the counter at zero), packages both into a
`RenameMeInfo`, and publishes it via `publish(std::move(info))`. -/
def generate_opmon_data (s : RenameMeState) : RenameMeState :=
  { s with
    m_amount_since_last_call := 0
    published := s.published ++ [opmon_info s] }

/-! ## Schema skeleton (`renameme.jsonnet`) -/

/-- The primitive kind of a schema entry, as produced by the moo builders
`s.number` (with its dtype string), `s.boolean` and `s.string`. -/
inductive SchemaKind where
  | number (dtype : String)
  | boolean
  | str
deriving DecidableEq, Repr

/-- One entry of the jsonnet type table: the namespace it was declared
under, its logical name, its primitive kind, an optional pattern
constraint, and its documentation string. -/
structure SchemaEntry where
  ns : String
  name : String
  kind : SchemaKind
  pattern : Option String
  doc : String
deriving DecidableEq, Repr

/-- Modelled from the spec: `moo.re.ident`, the identifier pattern
constant of the external moo library (its concrete regex text lives
outside this fragment); represented by an abstract marker value. -/
def moo_re_ident : String :=
  "moo.re.ident"

/-- `local ns = "dunedaq.package.renameme";` — the namespace string given
to `moo.oschema.schema` and to `moo.oschema.sort_select`. -/
def ns : String :=
  "dunedaq.package.renameme"

/-- Modelled from the spec: `s.number(name, dtype, doc)` of the builder
returned by `moo.oschema.schema(ns)` declares a numeric type of that
dtype under the builder's namespace. -/
def schema_number (nsArg nameArg dtype docArg : String) : SchemaEntry :=
  { ns := nsArg, name := nameArg, kind := SchemaKind.number dtype
    pattern := none, doc := docArg }

/-- Modelled from the spec: `s.boolean(name, doc)` declares a boolean type
under the builder's namespace. -/
def schema_boolean (nsArg nameArg docArg : String) : SchemaEntry :=
  { ns := nsArg, name := nameArg, kind := SchemaKind.boolean
    pattern := none, doc := docArg }

/-- Modelled from the spec: `s.string(name, pattern, doc)` declares a
string type carrying a pattern constraint under the builder's
namespace. -/
def schema_string (nsArg nameArg patternArg docArg : String) : SchemaEntry :=
  { ns := nsArg, name := nameArg, kind := SchemaKind.str
    pattern := some patternArg, doc := docArg }

/-- `local types = { ... };` — the five entries of the jsonnet type
table, each declared through the builder `s = moo.oschema.schema(ns)`. -/
def types : List SchemaEntry :=
  [ schema_number ns "int8" "i8" "A signed integer of 8 bytes"
  , schema_number ns "uint8" "u8" "An unsigned integer of 8 bytes"
  , schema_number ns "float8" "f8" "A float of 8 bytes"
  , schema_boolean ns "Boolean" "A boolean"
  , schema_string ns "String" moo_re_ident "A string" ]

/-- The top-level jsonnet expression
`moo.oschema.sort_select(types, ns)`: the file's value is exactly the
external sort-and-select function applied to the fixed table and the
namespace string; the external function itself is an abstract
argument. -/
def renameme_schema {α : Type} (sort_select : List SchemaEntry → String → α) : α :=
  sort_select types ns

end DaqCmake

/-! ## Theorems -/

namespace DaqCmake

/-- C1: for every state of the module's counters, calling
`generate_opmon_data` with total counter `5` and since-last-call counter
`3` publishes exactly one monitoring record, whose `total_amount` field is
`5` (the loaded total) and whose `amount_since_last_call` field is `3`
(the exchanged-out delta). -/
theorem generate_opmon_data_publishes_counter_values (s : RenameMeState)
    (htot : s.m_total_amount = 5) (hdelta : s.m_amount_since_last_call = 3) :
    (generate_opmon_data s).published =
      s.published ++ [{ total_amount := 5, amount_since_last_call := 3 }] := by
  simp [generate_opmon_data, opmon_info, htot, hdelta]

/-- Witness for C1 at a freshly constructed module whose counters hold
`total = 5` and `sinceLast = 3`. -/
theorem generate_opmon_data_publishes_counter_values_witness :
    (generate_opmon_data
        ⟨"m1", 5, 3, [("conf", Handler.doConf)], []⟩).published =
      [] ++ [{ total_amount := 5, amount_since_last_call := 3 }] :=
  generate_opmon_data_publishes_counter_values
    ⟨"m1", 5, 3, [("conf", Handler.doConf)], []⟩ rfl rfl

/-- C2: for every pair of counter values, after `generate_opmon_data`
returns, `m_amount_since_last_call` is zero and `m_total_amount` is
unchanged, and a second immediate invocation publishes a record with the
same `total_amount` and with `amount_since_last_call = 0` (read-and-clear:
the read does not affect the cumulative total). -/
theorem generate_opmon_data_read_and_clear (s : RenameMeState) :
    (generate_opmon_data s).m_amount_since_last_call = 0 ∧
    (generate_opmon_data s).m_total_amount = s.m_total_amount ∧
    (generate_opmon_data (generate_opmon_data s)).published =
      (generate_opmon_data s).published ++
        [{ total_amount := s.m_total_amount, amount_since_last_call := 0 }] := by
  refine ⟨rfl, rfl, ?_⟩
  simp [generate_opmon_data, opmon_info]

/-- C3: for every name string, construction succeeds (the constructor is a
total function with no error path), stores the name via the base
`DAQModule` contract, and registers exactly one command: `"conf"` bound to
`do_conf`. -/
theorem construct_stores_name_and_registers_conf (nameArg : String) :
    (construct nameArg).name = nameArg ∧
    (construct nameArg).commands = [("conf", Handler.doConf)] :=
  ⟨rfl, rfl⟩

/-- C5: for every configuration payload, `do_conf` ignores the payload and
performs no state change (the whole state, counters and command table
included, is identical before and after), so a second invocation with the
same payload yields the same end state as one invocation. -/
theorem do_conf_no_state_change {α : Type} (s : RenameMeState) (p : α) :
    do_conf s p = s ∧ do_conf (do_conf s p) p = do_conf s p :=
  ⟨rfl, rfl⟩

/-- C6: for every module configuration argument, `init` performs no work:
it returns the state unchanged (counters, name and registered commands
untouched), and it is a total function with no error path. -/
theorem init_performs_no_work {α : Type} (s : RenameMeState) (mcfg : α) :
    init s mcfg = s :=
  rfl

/-- C4: the type table of the schema skeleton has exactly five entries,
with logical names `int8, uint8, float8, Boolean, String`; every logical
name is unique within the table; and the `String` entry carries the
`moo.re.ident` identifier-pattern constraint. -/
theorem types_table_shape :
    types.map SchemaEntry.name = ["int8", "uint8", "float8", "Boolean", "String"] ∧
    (types.map SchemaEntry.name).Nodup ∧
    ∀ e ∈ types, e.name = "String" → e.pattern = some moo_re_ident := by
  refine ⟨rfl, by decide, ?_⟩
  decide

/-- C7: `renameme_schema` performs no computation of its own: for every
external sort-and-select function, its result is exactly that function
applied to the fixed five-entry table `types` and the namespace string
`ns`, with no transformation, filtering or error handling around the
single call. -/
theorem renameme_schema_delegates {α : Type}
    (sort_select : List SchemaEntry → String → α) :
    renameme_schema sort_select = sort_select types ns :=
  rfl

/-- C9: `generate_opmon_data` is deterministic in the counter state: two
states with equal counters yield field-for-field equal published records,
and the post-states agree on the counters (total preserved, delta zeroed);
the record depends on nothing besides the two counters. -/
theorem generate_opmon_data_deterministic (s₁ s₂ : RenameMeState)
    (htot : s₁.m_total_amount = s₂.m_total_amount)
    (hdelta : s₁.m_amount_since_last_call = s₂.m_amount_since_last_call) :
    opmon_info s₁ = opmon_info s₂ ∧
    (generate_opmon_data s₁).published = s₁.published ++ [opmon_info s₁] ∧
    (generate_opmon_data s₂).published = s₂.published ++ [opmon_info s₂] ∧
    (generate_opmon_data s₁).m_total_amount =
      (generate_opmon_data s₂).m_total_amount ∧
    (generate_opmon_data s₁).m_amount_since_last_call = 0 ∧
    (generate_opmon_data s₂).m_amount_since_last_call = 0 := by
  refine ⟨?_, rfl, rfl, ?_, rfl, rfl⟩
  · simp [opmon_info, htot, hdelta]
  · simpa [generate_opmon_data] using htot

/-- Witness for C9: two modules differing in name, command table and
publication history but with equal counters. -/
theorem generate_opmon_data_deterministic_witness :
    opmon_info ⟨"a", 7, 2, [("conf", Handler.doConf)], []⟩ =
      opmon_info ⟨"b", 7, 2, [], [⟨1, 1⟩]⟩ ∧
    (generate_opmon_data ⟨"a", 7, 2, [("conf", Handler.doConf)], []⟩).published =
      [] ++ [opmon_info ⟨"a", 7, 2, [("conf", Handler.doConf)], []⟩] ∧
    (generate_opmon_data ⟨"b", 7, 2, [], [⟨1, 1⟩]⟩).published =
      [⟨1, 1⟩] ++ [opmon_info ⟨"b", 7, 2, [], [⟨1, 1⟩]⟩] ∧
    (generate_opmon_data
        ⟨"a", 7, 2, [("conf", Handler.doConf)], []⟩).m_total_amount =
      (generate_opmon_data ⟨"b", 7, 2, [], [⟨1, 1⟩]⟩).m_total_amount ∧
    (generate_opmon_data
        ⟨"a", 7, 2, [("conf", Handler.doConf)], []⟩).m_amount_since_last_call = 0 ∧
    (generate_opmon_data
        ⟨"b", 7, 2, [], [⟨1, 1⟩]⟩).m_amount_since_last_call = 0 :=
  generate_opmon_data_deterministic
    ⟨"a", 7, 2, [("conf", Handler.doConf)], []⟩
    ⟨"b", 7, 2, [], [⟨1, 1⟩]⟩ rfl rfl

/-- C10: the schema skeleton passes the fixed namespace string
`"dunedaq.package.renameme"` both to the schema builder (so every entry of
the type table is declared under exactly that namespace) and to the final
sort-and-select call. -/
theorem renameme_schema_single_namespace {α : Type}
    (f : List SchemaEntry → String → α) :
    ns = "dunedaq.package.renameme" ∧
    renameme_schema f = f types "dunedaq.package.renameme" ∧
    ∀ e ∈ types, e.ns = "dunedaq.package.renameme" := by
  refine ⟨rfl, rfl, ?_⟩
  decide

end DaqCmake
